import Mathlib

/-
  Verification of the books_server repository: the event-driven cache
  synchronization engine (modelled from the specification, since the backend
  Python services are documented but their code is not in this tree) and the
  frontend TypeScript helpers (embedded directly from the source).
-/

namespace BooksServer

/-- JSON-like leaf values appearing in event payloads and HTTP bodies. -/
inductive Val where
  | vNull : Val
  | vInt : Int → Val
  | vStr : String → Val
deriving DecidableEq

/-- A flat JSON object: a mapping from field names to leaf values.  This is the
shape of an envelope's data payload. -/
abbrev Data := List (String × Val)

/-- First-match lookup of a key in an association list keyed by strings. -/
def lookupField {α : Type} (l : List (String × α)) (k : String) : Option α :=
  match l with
  | [] => none
  | (k2, v) :: rest => if k2 = k then some v else lookupField rest k

/-- Modelled from the spec: the local cache of foreign entities (the
authors_cache / books_cache table), keyed by the foreign entity's canonical
integer id.  The Python repository implementation is not in the tree. -/
abbrev Cache := List (Int × Data)

/-- Remove every row whose key equals the given id (the key is unique in the
real table, so this is row deletion). -/
def eraseKey (id : Int) : Cache → Cache
  | [] => []
  | (k, v) :: rest => if k = id then eraseKey id rest else (k, v) :: eraseKey id rest

/-- Look up a cached row by id. -/
def lookupRow (id : Int) : Cache → Option Data
  | [] => none
  | (k, v) :: rest => if k = id then some v else lookupRow id rest

/-- Modelled from the spec: the cache repository's upsert — an unconditional
insert-or-overwrite keyed by id (INSERT ... ON CONFLICT DO UPDATE). -/
def upsert (id : Int) (fields : Data) (c : Cache) : Cache :=
  (id, fields) :: eraseKey id c

/-- Modelled from the spec: the cache repository's remove — deletes the row if
present; removing an absent id is a success, not an error. -/
def removeRow (id : Int) (c : Cache) : Except String Cache :=
  Except.ok (eraseKey id c)

/-- Apply a function n times. -/
def applyN {α : Type} (f : α → α) : Nat → α → α
  | 0, a => a
  | n + 1, a => f (applyN f n a)

/-- A field of a wire message: either a leaf value or a nested flat object
(the envelope's data field is an object). -/
inductive Field where
  | fVal : Val → Field
  | fObj : Data → Field
deriving DecidableEq

/-- A received wire message, already parsed as a JSON object: a mapping from
top-level field names to fields.  Decoding checks this object against the
envelope contract. -/
abbrev RawMsg := List (String × Field)

/-- Modelled from the spec: the decoded event envelope (the Python envelope
codec is not in the tree).  Exact field set from the wire contract. -/
structure Envelope where
  event_type : String
  event_id : String
  timestamp : String
  correlation_id : Option String
  data : Data
deriving DecidableEq

/-- Modelled from the spec: decode a wire message into an envelope, or fail.
Required fields must be present with the right types; correlation_id may be a
string or null; unknown extra fields are ignored, not rejected. -/
def decode (msg : RawMsg) : Option Envelope :=
  match lookupField msg "event_type", lookupField msg "event_id",
        lookupField msg "timestamp", lookupField msg "correlation_id",
        lookupField msg "data" with
  | some (Field.fVal (Val.vStr et)), some (Field.fVal (Val.vStr eid)),
      some (Field.fVal (Val.vStr ts)), some cid, some (Field.fObj d) =>
    match cid with
    | Field.fVal (Val.vStr c) => some ⟨et, eid, ts, some c, d⟩
    | Field.fVal Val.vNull => some ⟨et, eid, ts, none, d⟩
    | _ => none
  | _, _, _, _, _ => none

/-- Modelled from the spec: the consuming service's mutable state — the cache
of foreign entities plus the relationship link rows. -/
structure SvcState where
  cache : Cache
  links : List (Int × Int)
deriving DecidableEq

/-- An event handler: takes the envelope's data payload and the service state,
returns the new state or a handler error. -/
abbrev Handler := Data → SvcState → Except String SvcState

/-- The handler registry: event-type string to handler. -/
abbrev Registry := List (String × Handler)

/-- Modelled from the spec: register a handler; the last registration for a
given event type wins (registration prepends, lookup takes the first match). -/
def registerHandler (et : String) (h : Handler) (reg : Registry) : Registry :=
  (et, h) :: reg

/-- Look up the single dispatch target for an event type. -/
def lookupHandler (reg : Registry) (et : String) : Option Handler :=
  lookupField reg et

/-- A dead-letter record: the full envelope when the message decoded (none for
a decode failure), the raw message, and the last error. -/
structure DeadLetter where
  envelope : Option Envelope
  raw : RawMsg
  lastError : String
deriving DecidableEq

/-- The terminal record of dispatching one message: resulting service state,
how many times the handler was invoked, the delays slept between consecutive
attempts, whether the message was acknowledged, and the dead-letter record if
it was dead-lettered. -/
structure DispatchResult where
  state : SvcState
  handlerAttempts : Nat
  delays : List Nat
  acked : Bool
  deadLetter : Option DeadLetter
deriving DecidableEq

/-- Modelled from the spec: the fixed retry bound of the dispatcher. -/
def maxAttempts : Nat := 3

/-- The outcome of the bounded retry loop: invocation count, inter-attempt
delays, and the final handler result. -/
structure AttemptsOut where
  attempts : Nat
  delays : List Nat
  result : Except String SvcState
deriving Inhabited

/-- Modelled from the spec: the bounded retry loop.  Invoke the handler; on
success stop; on failure, if attempts remain, sleep base * 2 ^ attemptIdx
(exponential backoff, base delay doubling each retry) and retry the same
message; a failed attempt leaves the state unchanged. -/
def runAttempts (h : Handler) (d : Data) (st : SvcState) (base : Nat) :
    Nat → Nat → AttemptsOut
  | _, 0 => ⟨0, [], Except.error "retry bound must be positive"⟩
  | attemptIdx, fuel + 1 =>
    match h d st with
    | Except.ok st2 => ⟨1, [], Except.ok st2⟩
    | Except.error e =>
      if fuel = 0 then ⟨1, [], Except.error e⟩
      else
        let r := runAttempts h d st base (attemptIdx + 1) fuel
        ⟨r.attempts + 1, base * 2 ^ attemptIdx :: r.delays, r.result⟩

/-- The error recorded when a message's bytes fail to decode. -/
def decodeFailureMsg : String := "decode failure: malformed envelope"

/-- Modelled from the spec: dispatch one received message.  Decode failure
dead-letters immediately with no retry; an unregistered event type is a no-op
success; otherwise the handler runs under the bounded retry loop and, on
exhaustion, the message is dead-lettered with the full envelope and the last
error.  Every terminal state acknowledges the message. -/
def processMessage (reg : Registry) (base : Nat) (msg : RawMsg)
    (st : SvcState) : DispatchResult :=
  match decode msg with
  | none => ⟨st, 0, [], true, some ⟨none, msg, decodeFailureMsg⟩⟩
  | some env =>
    match lookupHandler reg env.event_type with
    | none => ⟨st, 0, [], true, none⟩
    | some h =>
      let r := runAttempts h env.data st base 0 maxAttempts
      match r.result with
      | Except.ok st2 => ⟨st2, r.attempts, r.delays, true, none⟩
      | Except.error e =>
        ⟨st, r.attempts, r.delays, true, some ⟨some env, msg, e⟩⟩

/-- The outcome of one poll over a topic's pending messages: final state, the
per-message dispatch records in delivery order, and the messages left
unacknowledged (to be redelivered on the next poll). -/
structure PollOutcome where
  state : SvcState
  results : List DispatchResult
  redeliver : List RawMsg
deriving DecidableEq

/-- Modelled from the spec: process a topic's messages strictly in delivery
order, one at a time; message N + 1 starts only after message N reached a
terminal state.  An acknowledged message is not redelivered on the next poll. -/
def pollOnce (reg : Registry) (base : Nat) :
    List RawMsg → SvcState → PollOutcome
  | [], st => ⟨st, [], []⟩
  | m :: ms, st =>
    let r := processMessage reg base m st
    let rest := pollOnce reg base ms r.state
    ⟨rest.state, r :: rest.results,
      (if r.acked then [] else [m]) ++ rest.redeliver⟩

/-- Extract an integer field from a data payload. -/
def getIntField (d : Data) (k : String) : Option Int :=
  match lookupField d k with
  | some (Val.vInt i) => some i
  | _ => none

/-- Modelled from the spec: the handler for a foreign entity's created/updated
events (the Python handlers module is not in the tree) — it projects the
envelope's data into the local cache row keyed by the entity id, via the
repository's upsert. -/
def handleCreatedOrUpdated : Handler := fun d st =>
  match getIntField d "id" with
  | some i => Except.ok { st with cache := upsert i d st.cache }
  | none => Except.error "missing entity id"

/-- Modelled from the spec: the handler for a foreign entity's deleted event —
removes the cache row; removing an absent id succeeds. -/
def handleDeleted : Handler := fun d st =>
  match getIntField d "id" with
  | some i => Except.ok { st with cache := eraseKey i st.cache }
  | none => Except.error "missing entity id"

/-- Membership test on link rows. -/
def linkMem (p : Int × Int) : List (Int × Int) → Bool
  | [] => false
  | q :: rest => if q = p then true else linkMem p rest

/-- Insert a link row if not already present. -/
def addLink (p : Int × Int) (l : List (Int × Int)) : List (Int × Int) :=
  if linkMem p l then l else p :: l

/-- Remove a link row. -/
def removeLink (p : Int × Int) : List (Int × Int) → List (Int × Int)
  | [] => []
  | q :: rest => if q = p then removeLink p rest else q :: removeLink p rest

/-- Modelled from the spec: the handler for a relationship linked event —
stores the link row keyed by the ordered id pair, regardless of whether the
foreign entity is already present in the local cache. -/
def handleLinked : Handler := fun d st =>
  match getIntField d "author_id", getIntField d "book_id" with
  | some a, some b => Except.ok { st with links := addLink (a, b) st.links }
  | _, _ => Except.error "missing link ids"

/-- Modelled from the spec: the handler for a relationship unlinked event. -/
def handleUnlinked : Handler := fun d st =>
  match getIntField d "author_id", getIntField d "book_id" with
  | some a, some b => Except.ok { st with links := removeLink (a, b) st.links }
  | _, _ => Except.error "missing link ids"

/-- Modelled from the spec: the registry built at startup on the books side
for events published by the authors service. -/
def booksRegistry : Registry :=
  registerHandler "author_book.unlinked" handleUnlinked
    (registerHandler "author_book.linked" handleLinked
      (registerHandler "author.deleted" handleDeleted
        (registerHandler "author.updated" handleCreatedOrUpdated
          (registerHandler "author.created" handleCreatedOrUpdated []))))

/-- A well-formed wire message carrying the given event type and data payload,
with fixed event id, timestamp, and a null correlation id. -/
def mkMsg (et : String) (d : Data) : RawMsg :=
  [("event_type", Field.fVal (Val.vStr et)),
   ("event_id", Field.fVal (Val.vStr "11111111-1111-1111-1111-111111111111")),
   ("timestamp", Field.fVal (Val.vStr "2025-02-14T10:30:00+00:00")),
   ("correlation_id", Field.fVal Val.vNull),
   ("data", Field.fObj d)]

/-- The empty consuming-service state: empty foreign cache, no link rows. -/
def emptyState : SvcState := ⟨[], []⟩

/-- A handler that fails on every invocation with a fixed error. -/
def alwaysFailHandler : Handler := fun _ _ => Except.error "storage unavailable"

/-- The error function of the always-failing handler. -/
def constErr : Data → SvcState → String := fun _ _ => "storage unavailable"

/-- A registry whose only handler always fails. -/
def failRegistry : Registry :=
  registerHandler "author.created" alwaysFailHandler []

/-- A concrete well-formed message for the always-failing registry. -/
def failMsg : RawMsg := mkMsg "author.created" [("id", Val.vInt 1)]

/-- The envelope decoded from failMsg. -/
def failEnv : Envelope :=
  ⟨"author.created", "11111111-1111-1111-1111-111111111111",
    "2025-02-14T10:30:00+00:00", none, [("id", Val.vInt 1)]⟩

/-- A concrete well-formed message whose event type has no handler in the
books-side registry. -/
def unknownMsg : RawMsg := mkMsg "author.archived" []

/-- The envelope decoded from unknownMsg. -/
def unknownEnv : Envelope :=
  ⟨"author.archived", "11111111-1111-1111-1111-111111111111",
    "2025-02-14T10:30:00+00:00", none, []⟩

/-- A malformed wire message: it lacks the required envelope fields. -/
def malformedMsg : RawMsg := [("event_type", Field.fVal (Val.vStr "author.created"))]

/-- A concrete valid created-event message. -/
def goodMsg : RawMsg :=
  mkMsg "author.created" [("id", Val.vInt 1), ("name", Val.vStr "X")]

/-- A parsed JSON response body: an object with flat fields, or some other
JSON value (array or primitive), on which property access yields undefined. -/
inductive JsBody where
  | jsObj : List (String × Val) → JsBody
  | jsOther : JsBody
deriving DecidableEq

/-- JS string coercion of a leaf value, as applied by the Error constructor to
its message argument. -/
def valToMessage : Val → String
  | Val.vNull => "null"
  | Val.vInt i => toString i
  | Val.vStr s => s

/-- An HTTP response as observed by the frontend client: the ok flag, the
status code, and the body's JSON parse (none when res.json() rejects). -/
structure HttpResponse where
  ok : Bool
  status : Nat
  jsonBody : Option JsBody
deriving DecidableEq

/-- What the request helper's returned promise does. -/
inductive RequestOutcome where
  | threw : String → RequestOutcome
  | resolvedUndefined : RequestOutcome
  | resolvedBody : JsBody → RequestOutcome
  | threwParseError : RequestOutcome
deriving DecidableEq

/-- Embedded from src/frontend/src/lib/api/authors.ts (request): the error
message for a non-ok response — the JS expression is the detail property of
the parsed body (null when parsing failed) with a fallback, so a missing
object body, a missing detail property, or a null detail all fall back to the
status string. -/
def failureMessage (body : Option JsBody) (status : Nat) : String :=
  match body with
  | some (JsBody.jsObj fields) =>
    match lookupField fields "detail" with
    | some Val.vNull => "Request failed: " ++ toString status
    | some v => valToMessage v
    | none => "Request failed: " ++ toString status
  | _ => "Request failed: " ++ toString status

/-- Embedded from src/frontend/src/lib/api/authors.ts (request, identical in
the books copy): non-ok responses throw with failureMessage; ok 204 responses
resolve to undefined without reading the body; other ok responses resolve to
the parsed JSON body (rejecting if the body is not valid JSON). -/
def request (res : HttpResponse) : RequestOutcome :=
  if res.ok = false then
    RequestOutcome.threw (failureMessage res.jsonBody res.status)
  else if res.status = 204 then
    RequestOutcome.resolvedUndefined
  else
    match res.jsonBody with
    | some b => RequestOutcome.resolvedBody b
    | none => RequestOutcome.threwParseError

/-- A concrete non-ok response carrying a FastAPI-style detail message. -/
def sampleErrorResponse : HttpResponse :=
  ⟨false, 404, some (JsBody.jsObj [("detail", Val.vStr "Author not found")])⟩

/-- The author form payload shape (types.ts AuthorFormData). -/
structure AuthorFormData where
  name : String
  birth_date : Option String
  nationality : Option String
deriving DecidableEq

/-- Embedded from AuthorForm.svelte handleSubmit: the JS or-with-null idiom
maps the empty string (the only falsy string) to null and keeps any other
string; name passes through unchanged. -/
def authorHandleSubmit (nm bd natl : String) : AuthorFormData :=
  ⟨nm, if bd = "" then none else some bd, if natl = "" then none else some natl⟩

/-- A JS number that may be NaN (none). -/
abbrev JsNumber := Option Int

/-- Longest prefix of decimal digits. -/
def takeDigits : List Char → List Char
  | [] => []
  | c :: cs => if c.isDigit then c :: takeDigits cs else []

/-- Value of a string of decimal digits. -/
def digitsVal (cs : List Char) : Nat :=
  cs.foldl (fun a c => 10 * a + (c.toNat - 48)) 0

/-- JS parseInt with no radix argument on a decimal string: skip whitespace,
an optional sign, then the longest digit run; NaN (none) when no digits.  (Hex
prefixes, which the year input never produces, are outside this model.) -/
def parseIntJS (s : String) : JsNumber :=
  match s.trim.toList with
  | '-' :: rest =>
    if takeDigits rest = [] then none
    else some (-(digitsVal (takeDigits rest) : Int))
  | '+' :: rest =>
    if takeDigits rest = [] then none
    else some ((digitsVal (takeDigits rest) : Int))
  | cs =>
    if takeDigits cs = [] then none
    else some ((digitsVal (takeDigits cs) : Int))

/-- The book form payload shape (types.ts BookFormData); publication_year is a
number (possibly NaN) or null. -/
structure BookFormData where
  title : String
  isbn : Option String
  publication_year : Option JsNumber
deriving DecidableEq

/-- Embedded from the BookForm handleSubmit (src/ARCHITECTURE.md appendix):
empty isbn becomes null; empty publication_year becomes null, a non-empty one
becomes its parseInt value. -/
def bookHandleSubmit (ti isb py : String) : BookFormData :=
  ⟨ti, if isb = "" then none else some isb,
    if py = "" then none else some (parseIntJS py)⟩

/-- Which API function a list page's save handler invokes. -/
inductive ApiCall where
  | update : Int → ApiCall
  | create : ApiCall
deriving DecidableEq

/-- The list page state the save handler touches. -/
structure ListPageState where
  showForm : Bool
  editingId : Option Int
  errorMsg : String
deriving DecidableEq

/-- The observable outcome of one handleSave run: which API call was made,
the page state afterwards, and whether the list was reloaded. -/
structure SaveOutcome where
  call : ApiCall
  after : ListPageState
  reloaded : Bool
deriving DecidableEq

/-- Embedded from the list pages (src/unnamed/part_001, handleSave): the JS
truthiness test on editingId is false for null and for 0, so update is chosen
only for a non-null non-zero id. -/
def chosenCall (editingId : Option Int) : ApiCall :=
  match editingId with
  | some i => if i = 0 then ApiCall.create else ApiCall.update i
  | none => ApiCall.create

/-- Embedded from the list pages (src/unnamed/part_001, handleSave): the API
call result is abstracted as an Except; a rejected call jumps to the catch
block, which only sets the error message, leaving showForm and editingId
untouched; a successful call hides the form, clears the editing id, and then
reloads the list. -/
def handleSave (st : ListPageState) (apiResult : Except String Unit) : SaveOutcome :=
  match apiResult with
  | Except.ok _ => ⟨chosenCall st.editingId, ⟨false, none, st.errorMsg⟩, true⟩
  | Except.error m => ⟨chosenCall st.editingId, ⟨st.showForm, st.editingId, m⟩, false⟩

/-- The ordered actions handleSave performs. -/
inductive PageAction where
  | callUpdate : Int → PageAction
  | callCreate : PageAction
  | setShowForm : Bool → PageAction
  | setEditingId : Option Int → PageAction
  | reloadList : PageAction
  | setError : String → PageAction
deriving DecidableEq

/-- The first action of handleSave: the API call chosen by truthiness. -/
def chosenAction (editingId : Option Int) : PageAction :=
  match editingId with
  | some i => if i = 0 then PageAction.callCreate else PageAction.callUpdate i
  | none => PageAction.callCreate

/-- Embedded from the list pages (src/unnamed/part_001, handleSave), as the
ordered sequence of statements executed: the API call, then on success hiding
the form, clearing the editing id, and reloading; on failure only setting the
error message. -/
def handleSaveTrace (editingId : Option Int) (apiResult : Except String Unit) :
    List PageAction :=
  match apiResult with
  | Except.ok _ =>
    [chosenAction editingId, PageAction.setShowForm false,
     PageAction.setEditingId none, PageAction.reloadList]
  | Except.error m => [chosenAction editingId, PageAction.setError m]

lemma eraseKey_eraseKey (id : Int) (c : Cache) :
    eraseKey id (eraseKey id c) = eraseKey id c := by
  induction c with
  | nil => rfl
  | cons hd tl ih =>
    obtain ⟨k, v⟩ := hd
    by_cases h : k = id
    · simp [eraseKey, h, ih]
    · simp [eraseKey, h, ih]

lemma upsert_upsert (id : Int) (f : Data) (c : Cache) :
    upsert id f (upsert id f c) = upsert id f c := by
  simp [upsert, eraseKey, eraseKey_eraseKey]

lemma lookupRow_upsert_self (id : Int) (f : Data) (c : Cache) :
    lookupRow id (upsert id f c) = some f := by
  simp [upsert, lookupRow]

lemma lookupRow_eraseKey_self (id : Int) (c : Cache) :
    lookupRow id (eraseKey id c) = none := by
  induction c with
  | nil => rfl
  | cons hd tl ih =>
    obtain ⟨k, v⟩ := hd
    by_cases h : k = id
    · simp [eraseKey, h, ih]
    · simp [eraseKey, lookupRow, h, ih]

lemma processMessage_acked (reg : Registry) (base : Nat) (msg : RawMsg)
    (st : SvcState) : (processMessage reg base msg st).acked = true := by
  unfold processMessage
  split
  · rfl
  · split
    · rfl
    · dsimp only
      split <;> rfl

lemma decode_mkMsg (et : String) (d : Data) :
    decode (mkMsg et d) =
      some ⟨et, "11111111-1111-1111-1111-111111111111",
        "2025-02-14T10:30:00+00:00", none, d⟩ := rfl

lemma linkMem_addLink (p : Int × Int) (l : List (Int × Int)) :
    linkMem p (addLink p l) = true := by
  unfold addLink
  by_cases h : linkMem p l
  · simp [h]
  · simp [h, linkMem]

lemma runAttempts_first_ok (h : Handler) (d : Data) (st st2 : SvcState)
    (base idx : Nat) (hok : h d st = Except.ok st2) :
    runAttempts h d st base idx maxAttempts = ⟨1, [], Except.ok st2⟩ := by
  simp [maxAttempts, runAttempts, hok]

lemma processMessage_handler_ok (reg : Registry) (base : Nat) (msg : RawMsg)
    (env : Envelope) (st st2 : SvcState) (h : Handler)
    (hdec : decode msg = some env)
    (hlook : lookupHandler reg env.event_type = some h)
    (hok : h env.data st = Except.ok st2) :
    processMessage reg base msg st = ⟨st2, 1, [], true, none⟩ := by
  simp [processMessage, hdec, hlook, runAttempts_first_ok h env.data st st2 base 0 hok]

lemma chosenAction_ne_reload (e : Option Int) :
    chosenAction e ≠ PageAction.reloadList := by
  cases e with
  | none => simp [chosenAction]
  | some i => by_cases h : i = 0 <;> simp [chosenAction, h]

/-- C1: applying the cache repository's upsert for the same created/updated
event N times (N ≥ 1), from any starting cache, yields exactly the same final
cache state — in particular the same cached row for that id — as applying it
once, and upsert unconditionally overwrites or inserts the row for the id. -/
theorem upsert_idempotent (id : Int) (fields : Data) (c : Cache) (n : Nat)
    (hn : 1 ≤ n) :
    applyN (upsert id fields) n c = upsert id fields c ∧
    lookupRow id (applyN (upsert id fields) n c) = some fields := by
  have hmain : applyN (upsert id fields) n c = upsert id fields c := by
    induction n with
    | zero => omega
    | succ m ih =>
      rcases Nat.eq_zero_or_pos m with h0 | hpos
      · subst h0; rfl
      · show upsert id fields (applyN (upsert id fields) m c) = _
        rw [ih hpos, upsert_upsert]
  exact ⟨hmain, by rw [hmain, lookupRow_upsert_self]⟩

/-- C1 witness: the idempotence theorem instantiated at a concrete id, field
mapping, starting cache and N = 3. -/
theorem upsert_idempotent_witness :
    1 ≤ 3 ∧
    (applyN (upsert 1 [("name", Val.vStr "X")]) 3
        [(1, [("name", Val.vStr "Z")]), (2, [])] =
      upsert 1 [("name", Val.vStr "X")] [(1, [("name", Val.vStr "Z")]), (2, [])] ∧
    lookupRow 1 (applyN (upsert 1 [("name", Val.vStr "X")]) 3
        [(1, [("name", Val.vStr "Z")]), (2, [])]) = some [("name", Val.vStr "X")]) :=
  ⟨by decide,
   upsert_idempotent 1 [("name", Val.vStr "X")]
     [(1, [("name", Val.vStr "Z")]), (2, [])] 3 (by decide)⟩

/-- C7: removing an id with no cached row succeeds (returns ok, never an
error) and leaves the cache with no row for that id; when a row exists, remove
deletes it.  In every case the resulting cache has no row for the id. -/
theorem remove_tolerant (id : Int) (c : Cache) :
    ∃ c2, removeRow id c = Except.ok c2 ∧ lookupRow id c2 = none :=
  ⟨eraseKey id c, rfl, lookupRow_eraseKey_self id c⟩

/-- C2: a handler that fails on every attempt is invoked exactly 3 times with
strictly increasing delays between consecutive attempts (exponential backoff,
base then double the base); the message is then dead-lettered with the full
envelope and the last error, and still acknowledged, so it is not redelivered
on the next poll. -/
theorem retry_exhaustion (reg : Registry) (base : Nat) (msg : RawMsg)
    (env : Envelope) (st : SvcState) (h : Handler)
    (errOf : Data → SvcState → String)
    (hbase : 0 < base)
    (hdec : decode msg = some env)
    (hlook : lookupHandler reg env.event_type = some h)
    (hfail : ∀ d s, h d s = Except.error (errOf d s)) :
    (processMessage reg base msg st).handlerAttempts = 3 ∧
    (processMessage reg base msg st).delays = [base, 2 * base] ∧
    base < 2 * base ∧
    (processMessage reg base msg st).deadLetter =
      some ⟨some env, msg, errOf env.data st⟩ ∧
    (processMessage reg base msg st).acked = true ∧
    (pollOnce reg base [msg] st).redeliver = [] := by
  have hrun : runAttempts h env.data st base 0 maxAttempts =
      ⟨3, [base * 2 ^ 0, base * 2 ^ 1], Except.error (errOf env.data st)⟩ := by
    simp [maxAttempts, runAttempts, hfail]
  have hpm : processMessage reg base msg st =
      ⟨st, 3, [base * 2 ^ 0, base * 2 ^ 1], true,
        some ⟨some env, msg, errOf env.data st⟩⟩ := by
    simp [processMessage, hdec, hlook, hrun]
  refine ⟨by rw [hpm], by rw [hpm]; norm_num; ring, by omega, by rw [hpm],
    by rw [hpm], ?_⟩
  simp [pollOnce, processMessage_acked]

/-- C2 witness: the retry-exhaustion theorem instantiated at a concrete
always-failing handler, registry, message and base delay 1. -/
theorem retry_exhaustion_witness :
    0 < 1 ∧ decode failMsg = some failEnv ∧
    lookupHandler failRegistry failEnv.event_type = some alwaysFailHandler ∧
    (∀ d s, alwaysFailHandler d s = Except.error (constErr d s)) ∧
    ((processMessage failRegistry 1 failMsg emptyState).handlerAttempts = 3 ∧
     (processMessage failRegistry 1 failMsg emptyState).delays = [1, 2 * 1] ∧
     1 < 2 * 1 ∧
     (processMessage failRegistry 1 failMsg emptyState).deadLetter =
       some ⟨some failEnv, failMsg, constErr failEnv.data emptyState⟩ ∧
     (processMessage failRegistry 1 failMsg emptyState).acked = true ∧
     (pollOnce failRegistry 1 [failMsg] emptyState).redeliver = []) :=
  ⟨by decide, rfl, rfl, fun _ _ => rfl,
   retry_exhaustion failRegistry 1 failMsg failEnv emptyState alwaysFailHandler
     constErr (by decide) rfl rfl (fun _ _ => rfl)⟩

/-- C5: an envelope whose event type has no registered handler is acknowledged
as a no-op success — no handler invocation, no state mutation, no retry, no
dead-letter. -/
theorem unknown_type_noop (reg : Registry) (base : Nat) (msg : RawMsg)
    (env : Envelope) (st : SvcState)
    (hdec : decode msg = some env)
    (hlook : lookupHandler reg env.event_type = none) :
    processMessage reg base msg st = ⟨st, 0, [], true, none⟩ := by
  simp [processMessage, hdec, hlook]

/-- C5 witness: the unknown-type theorem instantiated at a concrete event type
absent from the books-side registry. -/
theorem unknown_type_noop_witness :
    decode unknownMsg = some unknownEnv ∧
    lookupHandler booksRegistry unknownEnv.event_type = none ∧
    processMessage booksRegistry 1 unknownMsg emptyState =
      ⟨emptyState, 0, [], true, none⟩ :=
  ⟨rfl, rfl, unknown_type_noop booksRegistry 1 unknownMsg unknownEnv emptyState rfl rfl⟩

/-- C6: a message whose bytes fail to decode goes straight to dead-letter with
zero handler attempts and is acknowledged with the state unchanged, and the
subsequent valid message on the same topic is processed normally from the same
state — the malformed message blocks nothing and nothing is redelivered. -/
theorem decode_failure_isolation (reg : Registry) (base : Nat)
    (bad good : RawMsg) (st : SvcState)
    (hbad : decode bad = none) :
    processMessage reg base bad st =
      ⟨st, 0, [], true, some ⟨none, bad, decodeFailureMsg⟩⟩ ∧
    pollOnce reg base [bad, good] st =
      ⟨(processMessage reg base good st).state,
       [processMessage reg base bad st, processMessage reg base good st],
       []⟩ := by
  have h1 : processMessage reg base bad st =
      ⟨st, 0, [], true, some ⟨none, bad, decodeFailureMsg⟩⟩ := by
    simp [processMessage, hbad]
  refine ⟨h1, ?_⟩
  simp [pollOnce, h1, processMessage_acked]

/-- C6 witness: the decode-failure theorem instantiated at a concrete
malformed message followed by a concrete valid message. -/
theorem decode_failure_isolation_witness :
    decode malformedMsg = none ∧
    (processMessage booksRegistry 1 malformedMsg emptyState =
      ⟨emptyState, 0, [], true, some ⟨none, malformedMsg, decodeFailureMsg⟩⟩ ∧
    pollOnce booksRegistry 1 [malformedMsg, goodMsg] emptyState =
      ⟨(processMessage booksRegistry 1 goodMsg emptyState).state,
       [processMessage booksRegistry 1 malformedMsg emptyState,
        processMessage booksRegistry 1 goodMsg emptyState],
       []⟩) :=
  ⟨rfl, decode_failure_isolation booksRegistry 1 malformedMsg goodMsg emptyState rfl⟩

/-- C3: consuming author.created id 1 name X, then author.updated id 1 name Y,
then author.deleted id 1, in order from the empty cache: after the first event
the cache row for id 1 has name X, after the second it has name Y, and after
the third no row for id 1 exists. -/
theorem end_to_end_scenario :
    ((pollOnce booksRegistry 1
        [mkMsg "author.created" [("id", Val.vInt 1), ("name", Val.vStr "X")],
         mkMsg "author.updated" [("id", Val.vInt 1), ("name", Val.vStr "Y")],
         mkMsg "author.deleted" [("id", Val.vInt 1)]] emptyState).results.map
      (fun r => lookupRow 1 r.state.cache)) =
      [some [("id", Val.vInt 1), ("name", Val.vStr "X")],
       some [("id", Val.vInt 1), ("name", Val.vStr "Y")],
       none] := by decide

/-- C4: a linked event applied while the foreign entity is absent from the
local cache succeeds (no dead-letter, acknowledged) and stores the link row;
after the linked and the created events are applied in either order, the final
state contains both the link row and the cached entity row. -/
theorem link_before_create (dL dC : Data) (a b : Int) (st : SvcState)
    (base : Nat)
    (ha : getIntField dL "author_id" = some a)
    (hb : getIntField dL "book_id" = some b)
    (hc : getIntField dC "id" = some a)
    (habs : lookupRow a st.cache = none) :
    (processMessage booksRegistry base (mkMsg "author_book.linked" dL) st).deadLetter
      = none ∧
    (processMessage booksRegistry base (mkMsg "author_book.linked" dL) st).acked
      = true ∧
    linkMem (a, b)
      (processMessage booksRegistry base (mkMsg "author_book.linked" dL) st).state.links
      = true ∧
    (linkMem (a, b)
      (processMessage booksRegistry base (mkMsg "author.created" dC)
        (processMessage booksRegistry base (mkMsg "author_book.linked" dL) st).state).state.links
      = true ∧
     lookupRow a
      (processMessage booksRegistry base (mkMsg "author.created" dC)
        (processMessage booksRegistry base (mkMsg "author_book.linked" dL) st).state).state.cache
      = some dC) ∧
    (linkMem (a, b)
      (processMessage booksRegistry base (mkMsg "author_book.linked" dL)
        (processMessage booksRegistry base (mkMsg "author.created" dC) st).state).state.links
      = true ∧
     lookupRow a
      (processMessage booksRegistry base (mkMsg "author_book.linked" dL)
        (processMessage booksRegistry base (mkMsg "author.created" dC) st).state).state.cache
      = some dC) := by
  have hLok : ∀ s : SvcState, handleLinked dL s =
      Except.ok { s with links := addLink (a, b) s.links } := by
    intro s; simp [handleLinked, ha, hb]
  have hCok : ∀ s : SvcState, handleCreatedOrUpdated dC s =
      Except.ok { s with cache := upsert a dC s.cache } := by
    intro s; simp [handleCreatedOrUpdated, hc]
  have hpmL : ∀ s : SvcState,
      processMessage booksRegistry base (mkMsg "author_book.linked" dL) s =
        ⟨{ s with links := addLink (a, b) s.links }, 1, [], true, none⟩ := by
    intro s
    exact processMessage_handler_ok booksRegistry base
      (mkMsg "author_book.linked" dL) _ s _ handleLinked (decode_mkMsg _ _) rfl (hLok s)
  have hpmC : ∀ s : SvcState,
      processMessage booksRegistry base (mkMsg "author.created" dC) s =
        ⟨{ s with cache := upsert a dC s.cache }, 1, [], true, none⟩ := by
    intro s
    exact processMessage_handler_ok booksRegistry base
      (mkMsg "author.created" dC) _ s _ handleCreatedOrUpdated (decode_mkMsg _ _) rfl (hCok s)
  refine ⟨?_, ?_, ?_, ⟨?_, ?_⟩, ⟨?_, ?_⟩⟩ <;>
    simp [hpmL, hpmC, linkMem_addLink, lookupRow_upsert_self]

/-- C4 witness: the link-tolerance theorem instantiated at a concrete link
payload and created payload, from the empty state. -/
theorem link_before_create_witness :
    getIntField [("author_id", Val.vInt 1), ("book_id", Val.vInt 2)] "author_id"
      = some 1 ∧
    getIntField [("author_id", Val.vInt 1), ("book_id", Val.vInt 2)] "book_id"
      = some 2 ∧
    getIntField [("id", Val.vInt 1), ("name", Val.vStr "X")] "id" = some 1 ∧
    lookupRow 1 emptyState.cache = none ∧
    linkMem (1, 2)
      (processMessage booksRegistry 1
        (mkMsg "author_book.linked"
          [("author_id", Val.vInt 1), ("book_id", Val.vInt 2)])
        emptyState).state.links = true ∧
    lookupRow 1
      (processMessage booksRegistry 1
        (mkMsg "author.created" [("id", Val.vInt 1), ("name", Val.vStr "X")])
        (processMessage booksRegistry 1
          (mkMsg "author_book.linked"
            [("author_id", Val.vInt 1), ("book_id", Val.vInt 2)])
          emptyState).state).state.cache
      = some [("id", Val.vInt 1), ("name", Val.vStr "X")] :=
  ⟨rfl, rfl, rfl, rfl,
   (link_before_create
      [("author_id", Val.vInt 1), ("book_id", Val.vInt 2)]
      [("id", Val.vInt 1), ("name", Val.vStr "X")] 1 2 emptyState 1
      rfl rfl rfl rfl).2.2.1,
   (link_before_create
      [("author_id", Val.vInt 1), ("book_id", Val.vInt 2)]
      [("id", Val.vInt 1), ("name", Val.vStr "X")] 1 2 emptyState 1
      rfl rfl rfl rfl).2.2.2.1.2⟩

/-- C8: the frontend request helper throws the body's detail message on a
non-ok response when the body parsed as a JSON object with a usable detail
property, throws the status fallback otherwise, resolves to undefined on an
ok 204 without reading the body, and resolves to the parsed body on any other
ok response. -/
theorem request_behavior (res : HttpResponse) :
    (∀ fields v, res.ok = false → res.jsonBody = some (JsBody.jsObj fields) →
      lookupField fields "detail" = some v → v ≠ Val.vNull →
      request res = RequestOutcome.threw (valToMessage v)) ∧
    (res.ok = false →
      (∀ fields v, res.jsonBody = some (JsBody.jsObj fields) →
        lookupField fields "detail" = some v → v = Val.vNull) →
      request res = RequestOutcome.threw ("Request failed: " ++ toString res.status)) ∧
    (res.ok = true → res.status = 204 →
      request res = RequestOutcome.resolvedUndefined) ∧
    (∀ b, res.ok = true → res.status ≠ 204 → res.jsonBody = some b →
      request res = RequestOutcome.resolvedBody b) := by
  refine ⟨?_, ?_, ?_, ?_⟩
  · intro fields v hok hbody hdet hnn
    cases v with
    | vNull => exact absurd rfl hnn
    | vInt i => simp [request, hok, failureMessage, hbody, hdet, valToMessage]
    | vStr s => simp [request, hok, failureMessage, hbody, hdet, valToMessage]
  · intro hok hnull
    rcases hbody : res.jsonBody with _ | b
    · simp [request, hok, failureMessage, hbody]
    · cases b with
      | jsOther => simp [request, hok, failureMessage, hbody]
      | jsObj fields =>
        rcases hdet : lookupField fields "detail" with _ | v
        · simp [request, hok, failureMessage, hbody, hdet]
        · have hv := hnull fields v hbody hdet
          subst hv
          simp [request, hok, failureMessage, hbody, hdet]
  · intro hok h204
    simp [request, hok, h204]
  · intro b hok hne hbody
    simp [request, hok, hne, hbody]

/-- C8 witness: the request theorem's detail branch instantiated at a concrete
404 response carrying a detail message. -/
theorem request_behavior_witness :
    sampleErrorResponse.ok = false ∧
    sampleErrorResponse.jsonBody
      = some (JsBody.jsObj [("detail", Val.vStr "Author not found")]) ∧
    lookupField [("detail", Val.vStr "Author not found")] "detail"
      = some (Val.vStr "Author not found") ∧
    Val.vStr "Author not found" ≠ Val.vNull ∧
    request sampleErrorResponse = RequestOutcome.threw "Author not found" :=
  ⟨rfl, rfl, rfl, by decide,
   (request_behavior sampleErrorResponse).1
     [("detail", Val.vStr "Author not found")] (Val.vStr "Author not found")
     rfl rfl rfl (by decide)⟩

/-- C9: the author form maps an empty birth_date or nationality to null (never
the empty string) and passes name through; the book form maps an empty isbn or
publication_year to null, and a non-empty publication_year to its parseInt
value. -/
theorem form_submit_nulls (nm bd natl ti isb py : String) :
    (authorHandleSubmit nm bd natl).name = nm ∧
    (bd = "" → (authorHandleSubmit nm bd natl).birth_date = none) ∧
    (bd ≠ "" → (authorHandleSubmit nm bd natl).birth_date = some bd) ∧
    (natl = "" → (authorHandleSubmit nm bd natl).nationality = none) ∧
    (natl ≠ "" → (authorHandleSubmit nm bd natl).nationality = some natl) ∧
    (authorHandleSubmit nm bd natl).birth_date ≠ some "" ∧
    (authorHandleSubmit nm bd natl).nationality ≠ some "" ∧
    (isb = "" → (bookHandleSubmit ti isb py).isbn = none) ∧
    (isb ≠ "" → (bookHandleSubmit ti isb py).isbn = some isb) ∧
    (bookHandleSubmit ti isb py).isbn ≠ some "" ∧
    (py = "" → (bookHandleSubmit ti isb py).publication_year = none) ∧
    (py ≠ "" → (bookHandleSubmit ti isb py).publication_year = some (parseIntJS py)) := by
  refine ⟨rfl, ?_, ?_, ?_, ?_, ?_, ?_, ?_, ?_, ?_, ?_, ?_⟩
  · intro h; simp [authorHandleSubmit, h]
  · intro h; simp [authorHandleSubmit, h]
  · intro h; simp [authorHandleSubmit, h]
  · intro h; simp [authorHandleSubmit, h]
  · by_cases h : bd = "" <;> simp [authorHandleSubmit, h]
  · by_cases h : natl = "" <;> simp [authorHandleSubmit, h]
  · intro h; simp [bookHandleSubmit, h]
  · intro h; simp [bookHandleSubmit, h]
  · by_cases h : isb = "" <;> simp [bookHandleSubmit, h]
  · intro h; simp [bookHandleSubmit, h]
  · intro h; simp [bookHandleSubmit, h]

/-- C9 witness: the form theorem instantiated at concrete inputs — an empty
birth date becomes null and a non-empty year becomes its parseInt value. -/
theorem form_submit_nulls_witness :
    ("" : String) = "" ∧ ("1967" : String) ≠ "" ∧
    (authorHandleSubmit "Gabriel" "" "Colombian").birth_date = none ∧
    (bookHandleSubmit "Cien" "" "1967").publication_year = some (parseIntJS "1967") :=
  ⟨rfl, by decide,
   (form_submit_nulls "Gabriel" "" "Colombian" "Cien" "" "1967").2.1 rfl,
   (form_submit_nulls "Gabriel" "" "Colombian" "Cien" "" "1967").2.2.2.2.2.2.2.2.2.2.2
     (by decide)⟩

/-- C10: handleSave calls update exactly when editingId is a non-null non-zero
number and create otherwise; on success it hides the form and clears the
editing id before reloading the list; on failure showForm and editingId are
unchanged and only the error message is set, with no reload. -/
theorem handle_save_behavior (st : ListPageState) (res : Except String Unit) :
    (∀ i, st.editingId = some i → i ≠ 0 →
      (handleSave st res).call = ApiCall.update i) ∧
    (st.editingId = none ∨ st.editingId = some 0 →
      (handleSave st res).call = ApiCall.create) ∧
    (res = Except.ok () →
      (handleSave st res).after.showForm = false ∧
      (handleSave st res).after.editingId = none ∧
      (handleSave st res).after.errorMsg = st.errorMsg ∧
      (handleSave st res).reloaded = true ∧
      ∃ pre, handleSaveTrace st.editingId res = pre ++ [PageAction.reloadList] ∧
        PageAction.setShowForm false ∈ pre ∧ PageAction.setEditingId none ∈ pre) ∧
    (∀ m, res = Except.error m →
      (handleSave st res).after.showForm = st.showForm ∧
      (handleSave st res).after.editingId = st.editingId ∧
      (handleSave st res).after.errorMsg = m ∧
      (handleSave st res).reloaded = false ∧
      PageAction.reloadList ∉ handleSaveTrace st.editingId res) := by
  refine ⟨?_, ?_, ?_, ?_⟩
  · intro i hi hne
    cases res <;> simp [handleSave, chosenCall, hi, hne]
  · intro hcase
    rcases hcase with h0 | h0 <;> cases res <;> simp [handleSave, chosenCall, h0]
  · intro hok
    subst hok
    refine ⟨rfl, rfl, rfl, rfl,
      ⟨[chosenAction st.editingId, PageAction.setShowForm false,
        PageAction.setEditingId none], rfl, by simp, by simp⟩⟩
  · intro m hm
    subst hm
    refine ⟨rfl, rfl, rfl, rfl, ?_⟩
    intro hmem
    rcases List.mem_cons.mp hmem with h1 | h2
    · exact chosenAction_ne_reload st.editingId h1.symm
    · rcases List.mem_cons.mp h2 with h3 | h4
      · exact PageAction.noConfusion h3
      · exact List.not_mem_nil _ h4

/-- C10 witness: the handleSave theorem instantiated at a page editing id 5
with a successful update call, and at a failing create call. -/
theorem handle_save_behavior_witness :
    (⟨true, some 5, ""⟩ : ListPageState).editingId = some 5 ∧ (5 : Int) ≠ 0 ∧
    (handleSave ⟨true, some 5, ""⟩ (Except.ok ())).call = ApiCall.update 5 ∧
    Except.error "boom" = (Except.error "boom" : Except String Unit) ∧
    (handleSave ⟨true, none, ""⟩ (Except.error "boom")).after.showForm = true :=
  ⟨rfl, by decide,
   (handle_save_behavior ⟨true, some 5, ""⟩ (Except.ok ())).1 5 rfl (by decide),
   rfl,
   ((handle_save_behavior ⟨true, none, ""⟩ (Except.error "boom")).2.2.2 "boom" rfl).1⟩

end BooksServer
